import Mathlib

/-!
Shallow embedding of the keras_notebooks repository: two Jupyter notebooks
(MNIST_cnn.ipynb and Reuters_MLP.ipynb) that configure and invoke the Keras
deep-learning framework.  The notebooks are straight-line scripts; we embed
the cell-level pipeline order, the model-construction event sequences, the
hyperparameter-constant usage tables, and the small pure computations the
notebooks perform (one-hot encoding, argmax, pixel scaling, the hidden-layer
loop).  Framework routines whose results the notebooks consume are modelled
by their documented semantics; the output_model module, absent from the
repository source, is modelled from the specification.
-/

namespace KerasNotebooks

/-- A top-level pipeline step of a notebook, one per code cell
(consecutive visualization cells are one step; empty cells are omitted). -/
inductive NBStep where
  | imports
  | defineHyperparams
  | loadDataset
  | buildModel
  | fitModel
  | evaluateModel
  | visualize
  | saveModel
deriving DecidableEq

/-- Cell order of MNIST_cnn.ipynb: imports; constants cell; mnist.load_data
and preprocessing; Sequential assembly and compile; fit; evaluate;
visualization cells (plotting setup, show_predictions definition and call);
output_model.save_model.  Trailing cells are empty. -/
def mnistSteps : List NBStep :=
  [.imports, .defineHyperparams, .loadDataset, .buildModel, .fitModel,
   .evaluateModel, .visualize, .saveModel]

/-- Cell order of Reuters_MLP.ipynb: imports; constants cell;
reuters.load_data and vectorization; Sequential assembly and compile; fit;
evaluate; output_model.save_model.  There is no visualization cell. -/
def reutersSteps : List NBStep :=
  [.imports, .defineHyperparams, .loadDataset, .buildModel, .fitModel,
   .evaluateModel, .saveModel]

/-- The ordering asserted by the claim: dataset loading precedes
hyperparameter definition, then build, fit, evaluate, and the save helper is
the last step. -/
def claimedPipelineOrder (t : List NBStep) : Prop :=
  t.indexOf .loadDataset < t.indexOf .defineHyperparams ∧
  t.indexOf .defineHyperparams < t.indexOf .buildModel ∧
  t.indexOf .buildModel < t.indexOf .fitModel ∧
  t.indexOf .fitModel < t.indexOf .evaluateModel ∧
  t.indexOf .saveModel = t.length - 1

/-- The ordering the code actually has: hyperparameter definition precedes
dataset loading, then build, fit, evaluate, and the save helper is the last
step. -/
def actualPipelineOrder (t : List NBStep) : Prop :=
  t.indexOf .defineHyperparams < t.indexOf .loadDataset ∧
  t.indexOf .loadDataset < t.indexOf .buildModel ∧
  t.indexOf .buildModel < t.indexOf .fitModel ∧
  t.indexOf .fitModel < t.indexOf .evaluateModel ∧
  t.indexOf .saveModel = t.length - 1

/-- A Keras layer as constructed in the notebooks.  Every layer object the
repository builds is one of these six framework-provided constructors;
dropout fractions are exact rationals. -/
inductive Layer where
  | Convolution2D (nbFilter nbRow nbCol : Nat)
      (borderMode : Option String) (inputShape : Option (List Nat))
  | MaxPooling2D (poolRows poolCols : Nat)
  | Dense (outputDim : Nat) (inputShape : Option (List Nat))
  | Dropout (p : Rat)
  | Activation (fn : String)
  | Flatten
deriving DecidableEq

/-- The framework constructor a layer comes from. -/
def Layer.kindName : Layer → String
  | .Convolution2D .. => "Convolution2D"
  | .MaxPooling2D .. => "MaxPooling2D"
  | .Dense .. => "Dense"
  | .Dropout .. => "Dropout"
  | .Activation .. => "Activation"
  | .Flatten => "Flatten"

def Layer.isConvolution2D : Layer → Bool
  | .Convolution2D .. => true
  | _ => false

def Layer.isMaxPooling2D : Layer → Bool
  | .MaxPooling2D .. => true
  | _ => false

def Layer.isDropout : Layer → Bool
  | .Dropout _ => true
  | _ => false

namespace MNIST

/-- from src MNIST_cnn.ipynb constants cell -/
def batch_size : Nat := 128

def nb_classes : Nat := 10

def nb_epoch : Nat := 12

def img_rows : Nat := 28

def img_cols : Nat := 28

def nb_filters : Nat := 32

def nb_pool : Nat := 2

def nb_conv : Nat := 3

def conv_dropout : Rat := (25 : Rat) / 100

def dens_dropout : Rat := (5 : Rat) / 10

def nb_hidden : Nat := 128

end MNIST

namespace Reuters

/-- from src Reuters_MLP.ipynb constants cell -/
def max_words : Nat := 1000

def batch_size : Nat := 32

def nb_epoch : Nat := 15

def nb_dense : Nat := 512

def nb_hidden : Int := 1

def p_dropout : Rat := (5 : Rat) / 10

/-- nb_classes is computed in the data cell as np.max(y_train)+1; the
recorded output of that cell prints 46 classes. -/
def nb_classes : Nat := 46

end Reuters

/-- from src: nb_classes = np.max(y_train)+1 (Reuters data cell). -/
def reutersNbClassesOf (y : List Nat) : Nat := y.foldr Nat.max 0 + 1

/-- The layer sequence added to the MNIST Sequential model, transcribed from
the model-assembly cell of MNIST_cnn.ipynb. -/
def mnistLayers : List Layer :=
  [.Convolution2D MNIST.nb_filters MNIST.nb_conv MNIST.nb_conv
      (some "valid") (some [1, MNIST.img_rows, MNIST.img_cols]),
   .Activation "relu",
   .Convolution2D MNIST.nb_filters MNIST.nb_conv MNIST.nb_conv none none,
   .Activation "relu",
   .MaxPooling2D MNIST.nb_pool MNIST.nb_pool,
   .Dropout MNIST.conv_dropout,
   .Flatten,
   .Dense MNIST.nb_hidden none,
   .Activation "relu",
   .Dropout MNIST.dens_dropout,
   .Dense MNIST.nb_classes none,
   .Activation "softmax"]

/-- The layer sequence added to the Reuters Sequential model as a function of
the nb_hidden constant, transcribed from the model-assembly cell of
Reuters_MLP.ipynb: one Dense/relu/Dropout block is added unconditionally,
the loop `for _ in range(nb_hidden-1)` adds `(nb_hidden-1).toNat` more
identical blocks (a Python range over a non-positive bound is empty, matching
Int.toNat), then the Dense output layer and softmax. -/
def buildReutersLayers (nbHidden : Int) : List Layer :=
  [.Dense Reuters.nb_dense (some [Reuters.max_words]),
   .Activation "relu",
   .Dropout Reuters.p_dropout]
  ++ (List.replicate (nbHidden - 1).toNat
        ([.Dense Reuters.nb_dense none,
          .Activation "relu",
          .Dropout Reuters.p_dropout] : List Layer)).flatten
  ++ [.Dense Reuters.nb_classes none,
      .Activation "softmax"]

/-- The Reuters model as built by the notebook, at the recorded
nb_hidden = 1. -/
def reutersLayers : List Layer := buildReutersLayers Reuters.nb_hidden

/-- Each hidden block contributes exactly one Dropout layer and the input
and output blocks contribute none besides the first block and none
respectively, so hidden blocks are counted by Dropout layers. -/
def countHiddenBlocks (ls : List Layer) : Nat := ls.countP Layer.isDropout

/-- An operation performed on a Sequential model object, in program order:
add a layer, compile, fit on a dataset, or evaluate on a dataset. -/
inductive ModelEvent where
  | add (l : Layer)
  | compile (loss optimizer : String) (metrics : List String)
  | fit (data : String) (batchSize nbEpoch : Nat)
  | evaluate (data : String)
deriving DecidableEq

def ModelEvent.isAdd : ModelEvent → Bool
  | .add _ => true
  | _ => false

def ModelEvent.isCompile : ModelEvent → Bool
  | .compile .. => true
  | _ => false

def ModelEvent.isFit : ModelEvent → Bool
  | .fit .. => true
  | _ => false

def ModelEvent.isEvaluate : ModelEvent → Bool
  | .evaluate _ => true
  | _ => false

/-- Everything done to the MNIST model object, in source order: the add
calls of the assembly cell, one compile, the fit call of the training cell
(batch_size=128, nb_epoch=12) and the evaluate call on the test set. -/
def mnistModelEvents : List ModelEvent :=
  mnistLayers.map .add
  ++ [.compile "categorical_crossentropy" "adadelta" ["accuracy"],
      .fit "X_train Y_train" MNIST.batch_size MNIST.nb_epoch,
      .evaluate "X_test Y_test"]

/-- Everything done to the Reuters model object, in source order. -/
def reutersModelEvents : List ModelEvent :=
  reutersLayers.map .add
  ++ [.compile "categorical_crossentropy" "adam" ["accuracy"],
      .fit "X_train Y_train" Reuters.batch_size Reuters.nb_epoch,
      .evaluate "X_test Y_test"]

/-- The two Sequential models constructed in the repository (the embedded
duplicate of the Reuters notebook inside the MNIST file builds the second
one by the identical code). -/
def repositoryModels : List (List Layer) := [mnistLayers, reutersLayers]

/-- The layer kinds the claim allows: the six pre-built framework
constructors. -/
def allowedLayerKinds : List String :=
  ["Convolution2D", "MaxPooling2D", "Dense", "Dropout", "Activation", "Flatten"]

/-- A model-construction event list is well-formed in the sense of the
claim: it is adds of allowed pre-built layers followed by events that add
nothing, compile occurs exactly once, and it occurs before the fit. -/
def sequentialAssemblyOk (evs : List ModelEvent) : Prop :=
  (evs.all fun e => match e with
    | .add l => allowedLayerKinds.contains l.kindName
    | _ => true) = true ∧
  ((evs.dropWhile ModelEvent.isAdd).all fun e => !e.isAdd) = true ∧
  evs.countP (fun e => e.isCompile) = 1 ∧
  evs.findIdx ModelEvent.isCompile < evs.findIdx ModelEvent.isFit ∧
  evs.countP (fun e => e.isFit) = 1

/-- Modelled framework semantics: model.evaluate on a model compiled with
metrics=[accuracy] returns the pair [loss, accuracy]. -/
def evaluateScores (loss acc : Rat) : List Rat := [loss, acc]

/-- from src: print(Test score, score[0]). -/
def reportedTestScore (score : List Rat) : Option Rat := score.get? 0

/-- from src: print(Test accuracy, score[1]). -/
def reportedTestAccuracy (score : List Rat) : Option Rat := score.get? 1

/-- A framework call appearing in a notebook, with the list of
hyperparameter-constant names passed to it as arguments (directly or inside
a keyword argument such as input_shape or pool_size). -/
structure FrameworkCall where
  name : String
  constArgs : List String
deriving DecidableEq

/-- All framework calls of MNIST_cnn.ipynb with the constant names they
receive, in source order. -/
def mnistFrameworkCalls : List FrameworkCall :=
  [⟨"mnist.load_data", []⟩,
   ⟨"np_utils.to_categorical", ["nb_classes"]⟩,
   ⟨"Sequential", []⟩,
   ⟨"Convolution2D", ["nb_filters", "nb_conv", "img_rows", "img_cols"]⟩,
   ⟨"Activation", []⟩,
   ⟨"Convolution2D", ["nb_filters", "nb_conv"]⟩,
   ⟨"Activation", []⟩,
   ⟨"MaxPooling2D", ["nb_pool"]⟩,
   ⟨"Dropout", ["conv_dropout"]⟩,
   ⟨"Flatten", []⟩,
   ⟨"Dense", ["nb_hidden"]⟩,
   ⟨"Activation", []⟩,
   ⟨"Dropout", ["dens_dropout"]⟩,
   ⟨"Dense", ["nb_classes"]⟩,
   ⟨"Activation", []⟩,
   ⟨"model.compile", []⟩,
   ⟨"model.fit", ["batch_size", "nb_epoch"]⟩,
   ⟨"model.evaluate", []⟩,
   ⟨"model.predict_proba", []⟩,
   ⟨"output_model.save_model", []⟩]

/-- All framework calls of Reuters_MLP.ipynb with the constant names they
receive, in source order. -/
def reutersFrameworkCalls : List FrameworkCall :=
  [⟨"reuters.load_data", ["max_words"]⟩,
   ⟨"Tokenizer", ["max_words"]⟩,
   ⟨"tokenizer.sequences_to_matrix", []⟩,
   ⟨"tokenizer.sequences_to_matrix", []⟩,
   ⟨"np_utils.to_categorical", ["nb_classes"]⟩,
   ⟨"np_utils.to_categorical", ["nb_classes"]⟩,
   ⟨"Sequential", []⟩,
   ⟨"Dense", ["nb_dense", "max_words"]⟩,
   ⟨"Activation", []⟩,
   ⟨"Dropout", ["p_dropout"]⟩,
   ⟨"Dense", ["nb_dense"]⟩,
   ⟨"Activation", []⟩,
   ⟨"Dropout", ["p_dropout"]⟩,
   ⟨"Dense", ["nb_classes"]⟩,
   ⟨"Activation", []⟩,
   ⟨"model.compile", []⟩,
   ⟨"model.fit", ["nb_epoch", "batch_size"]⟩,
   ⟨"model.evaluate", ["batch_size"]⟩,
   ⟨"output_model.save_model", []⟩]

/-- The constant names defined in the MNIST constants cell. -/
def mnistConfigConstants : List String :=
  ["batch_size", "nb_classes", "nb_epoch", "img_rows", "img_cols",
   "nb_filters", "nb_pool", "nb_conv", "conv_dropout", "dens_dropout",
   "nb_hidden"]

/-- The constant names defined in the Reuters constants cell. -/
def reutersConfigConstants : List String :=
  ["max_words", "batch_size", "nb_epoch", "nb_dense", "nb_hidden",
   "p_dropout"]

/-- The constant names the claim enumerates. -/
def claimedConstants : List String :=
  ["batch_size", "nb_epoch", "nb_classes", "nb_filters", "nb_conv",
   "nb_pool", "conv_dropout", "dens_dropout", "nb_hidden", "max_words",
   "nb_dense", "p_dropout"]

/-- Names assigned in MNIST_cnn.ipynb cells after the constants cell. -/
def mnistAssignedAfterConfig : List String :=
  ["X_train", "y_train", "X_test", "y_test", "Y_train", "Y_test", "model",
   "t1", "t2", "score", "show_predictions"]

/-- Names assigned in Reuters_MLP.ipynb cells after the constants cell
(nb_classes is first defined there, in the data cell). -/
def reutersAssignedAfterConfig : List String :=
  ["X_train", "y_train", "X_test", "y_test", "nb_classes", "tokenizer",
   "Y_train", "Y_test", "model", "t1", "history", "t2", "score"]

/-- Constant names consumed in the Reuters notebook only as the bound of
the Python range() loop over hidden blocks, not by any framework call. -/
def reutersRangeBoundConsts : List String := ["nb_hidden"]

/-- The constant name is passed as an argument to some framework call in
the given call table. -/
def usedByFrameworkCall (calls : List FrameworkCall) (c : String) : Bool :=
  calls.any fun fc => fc.constArgs.contains c

/-- The claim as stated: every enumerated constant, in each notebook whose
configuration cell defines it, is passed into at least one framework call
and is not reassigned after its defining cell. -/
def claimedConstantUsage : Prop :=
  ∀ c ∈ claimedConstants,
    (c ∈ mnistConfigConstants →
      usedByFrameworkCall mnistFrameworkCalls c = true ∧
      c ∉ mnistAssignedAfterConfig) ∧
    (c ∈ reutersConfigConstants →
      usedByFrameworkCall reutersFrameworkCalls c = true ∧
      c ∉ reutersAssignedAfterConfig)

/-- The amended usage property: as claimed, except that the Reuters
nb_hidden constant is exempted from the framework-call requirement; it is
consumed only as the range() loop bound and is still never reassigned. -/
def amendedConstantUsage : Prop :=
  (∀ c ∈ claimedConstants,
    (c ∈ mnistConfigConstants →
      usedByFrameworkCall mnistFrameworkCalls c = true ∧
      c ∉ mnistAssignedAfterConfig) ∧
    (c ∈ reutersConfigConstants → c ≠ "nb_hidden" →
      usedByFrameworkCall reutersFrameworkCalls c = true ∧
      c ∉ reutersAssignedAfterConfig)) ∧
  "nb_hidden" ∈ reutersRangeBoundConsts ∧
  "nb_hidden" ∉ reutersAssignedAfterConfig

/-- A top-level statement of a notebook (one per code cell), with whether it
is wrapped in any failure handler.  Neither notebook contains a
try/except, fallback or retry, so every cell is unguarded. -/
structure NotebookStmt where
  cell : Nat
  desc : String
  guarded : Bool
deriving DecidableEq

/-- The code cells of MNIST_cnn.ipynb. -/
def mnistStmts : List NotebookStmt :=
  [⟨1, "imports", false⟩,
   ⟨3, "constants", false⟩,
   ⟨5, "load and preprocess data", false⟩,
   ⟨7, "build and compile model", false⟩,
   ⟨9, "fit", false⟩,
   ⟨10, "evaluate", false⟩,
   ⟨12, "plotting setup", false⟩,
   ⟨13, "define show_predictions", false⟩,
   ⟨14, "call show_predictions", false⟩,
   ⟨16, "save model", false⟩]

/-- The code cells of Reuters_MLP.ipynb. -/
def reutersStmts : List NotebookStmt :=
  [⟨1, "imports", false⟩,
   ⟨3, "constants", false⟩,
   ⟨5, "load and vectorize data", false⟩,
   ⟨7, "build and compile model", false⟩,
   ⟨9, "fit", false⟩,
   ⟨10, "evaluate", false⟩,
   ⟨12, "import output_model", false⟩,
   ⟨13, "save model", false⟩]

/-- Execution of a straight-line notebook under an environment that may
make any cell fail: a failing guarded cell would be swallowed by its
handler, a failing unguarded cell aborts the run with that failure. -/
def runNotebook (fail : Nat → Option String) : List NotebookStmt → Except String Unit
  | [] => .ok ()
  | s :: rest =>
    match fail s.cell with
    | some e => if s.guarded then runNotebook fail rest else .error e
    | none => runNotebook fail rest

/-- Reference semantics in which every failure propagates unchanged to the
caller. -/
def runPropagating (fail : Nat → Option String) : List NotebookStmt → Except String Unit
  | [] => .ok ()
  | s :: rest =>
    match fail s.cell with
    | some e => .error e
    | none => runPropagating fail rest

/-- Modelled framework semantics: keras np_utils.to_categorical produces,
for each label, the one-hot row of the given width. -/
def oneHot (n k : Nat) : List Rat :=
  (List.range n).map fun j => if j = k then 1 else 0

/-- Modelled framework semantics: np_utils.to_categorical(y, nb_classes)
maps each label of y to its one-hot row. -/
def to_categorical (y : List Nat) (n : Nat) : List (List Rat) :=
  y.map (oneHot n)

/-- The maximum of a nonempty list of rationals (0 on the empty list). -/
def listMax : List Rat → Rat
  | [] => 0
  | [x] => x
  | x :: y :: xs => max x (listMax (y :: xs))

/-- Modelled framework semantics: np.argmax returns the first index at
which the maximum entry occurs. -/
def np_argmax (l : List Rat) : Nat := l.indexOf (listMax l)

/-- from src: inside show_predictions, actual = np.argmax(Y_test[i]). -/
def show_predictions_actual (Ytest : List (List Rat)) (i : Nat) : Nat :=
  np_argmax (Ytest.getD i [])

/-- from src: X = X.astype(float32); X /= 255, applied entrywise; float32
arithmetic is idealized as exact rational arithmetic. -/
def preprocessImage (img : List Nat) : List Rat :=
  img.map fun p : Nat => (p : Rat) / 255

/-- from src: X.reshape(X.shape[0], 1, img_rows, img_cols). -/
def mnistReshapedShape (n : Nat) : List Nat :=
  [n, 1, MNIST.img_rows, MNIST.img_cols]

/-- Recorded output of the MNIST data cell: 60000 train samples. -/
def mnist_train_samples : Nat := 60000

/-- Recorded output of the MNIST data cell: 10000 test samples. -/
def mnist_test_samples : Nat := 10000

/-- Modelled from the spec: the output_model module is not in the
repository source.  Per the spec, output_model.save_model(model, path) does
no more than call the framework serialization routine on the model and
store the result at the target path, first asking a y/n overwrite question
when the target already exists; answering n leaves the existing file
unchanged.  The file system is an association list from paths to stored
bytes; the result is the new file system paired with whether the overwrite
prompt was shown. -/
def save_model (serialize : List Layer → List Nat)
    (fs : List (String × List Nat)) (model : List Layer) (path : String)
    (answer : Char) : List (String × List Nat) × Bool :=
  if (fs.lookup path).isSome then
    if answer = 'n' then
      (fs, true)
    else
      (fs.map fun kv => if kv.1 = path then (path, serialize model) else kv, true)
  else
    ((path, serialize model) :: fs, false)

/-- The input shape declared on the first layer of a model, when any. -/
def inputShapeOf : List Layer → Option (List Nat)
  | .Convolution2D _ _ _ _ s :: _ => s
  | .Dense _ s :: _ => s
  | _ => none

end KerasNotebooks

namespace KerasNotebooks

/-- Unfolding listMax on a two-or-more element list. -/
theorem listMax_cons_of_ne_nil (x : Rat) (xs : List Rat) (h : xs ≠ []) :
    listMax (x :: xs) = max x (listMax xs) := by
  cases xs with
  | nil => exact absurd rfl h
  | cons y ys => rfl

/-- The maximum of a list of zeros is zero. -/
theorem listMax_replicate_zero (m : Nat) : listMax (List.replicate m (0:Rat)) = 0 := by
  induction m with
  | zero => rfl
  | succ k ih =>
    cases k with
    | zero => rfl
    | succ k2 =>
      rw [List.replicate_succ,
        listMax_cons_of_ne_nil _ _ (by simp [List.replicate_succ]), ih]
      simp

/-- The maximum of a one-hot shaped list is its single 1 entry. -/
theorem listMax_oneHotShape (k m : Nat) :
    listMax (List.replicate k (0:Rat) ++ 1 :: List.replicate m 0) = 1 := by
  induction k with
  | zero =>
    simp only [List.replicate_zero, List.nil_append]
    cases m with
    | zero => rfl
    | succ m2 =>
      rw [listMax_cons_of_ne_nil _ _ (by simp), listMax_replicate_zero]
      simp
  | succ k2 ih =>
    rw [List.replicate_succ, List.cons_append,
      listMax_cons_of_ne_nil _ _ (by simp), ih]
    simp

/-- The first index of the 1 entry in a one-hot shaped list. -/
theorem indexOf_oneHotShape (k m : Nat) :
    List.indexOf (1:Rat) (List.replicate k 0 ++ 1 :: List.replicate m 0) = k := by
  induction k with
  | zero => simp
  | succ k2 ih =>
    rw [List.replicate_succ, List.cons_append,
      List.indexOf_cons_ne _ (by norm_num), ih]

/-- A one-hot row written as zeros, the 1 entry, zeros. -/
theorem oneHot_eq_replicate (k : Nat) : ∀ n : Nat, k < n →
    oneHot n k = List.replicate k 0 ++ 1 :: List.replicate (n - k - 1) 0 := by
  induction k with
  | zero =>
    intro n hn
    obtain ⟨m, rfl⟩ : ∃ m, n = m + 1 := ⟨n - 1, by omega⟩
    unfold oneHot
    rw [List.range_succ_eq_map, List.map_cons, List.map_map]
    simp only [List.replicate_zero, List.nil_append, Nat.add_sub_cancel]
    congr 1
    refine List.eq_replicate_iff.2 ⟨by simp, ?_⟩
    intro b hb
    simp only [List.mem_map, Function.comp, List.mem_range] at hb
    obtain ⟨j, hj, rfl⟩ := hb
    simp
  | succ k2 ih =>
    intro n hn
    obtain ⟨m, rfl⟩ : ∃ m, n = m + 1 := ⟨n - 1, by omega⟩
    unfold oneHot
    rw [List.range_succ_eq_map, List.map_cons, List.map_map]
    have hfun : ((fun j : Nat => if j = k2 + 1 then (1:Rat) else 0) ∘ Nat.succ)
        = fun j => if j = k2 then 1 else 0 := by
      funext j
      by_cases hj : j = k2
      · simp [Function.comp, hj]
      · have h1 : j + 1 ≠ k2 + 1 := by omega
        simp [Function.comp, hj, Nat.succ_eq_add_one, h1]
    rw [hfun]
    have htail := ih m (by omega)
    unfold oneHot at htail
    rw [htail, show m + 1 - (k2 + 1) - 1 = m - k2 - 1 from by omega,
      List.replicate_succ, List.cons_append]
    congr 1

/-- np.argmax of a one-hot row recovers the hot position. -/
theorem np_argmax_oneHot (n k : Nat) (h : k < n) : np_argmax (oneHot n k) = k := by
  rw [oneHot_eq_replicate k n h]
  unfold np_argmax
  rw [listMax_oneHotShape, indexOf_oneHotShape]

/-- Counting with countP distributes over flattening a replicated block. -/
theorem countP_flatten_replicate (p : Layer → Bool) (k : Nat) (blk : List Layer) :
    ((List.replicate k blk).flatten).countP p = k * blk.countP p := by
  induction k with
  | zero => simp
  | succ k2 ih =>
    rw [List.replicate_succ, List.flatten_cons, List.countP_append, ih,
      Nat.succ_mul]
    omega

/-- On a statement list with no failure handler, execution agrees with the
semantics that propagates every failure unchanged. -/
theorem runNotebook_eq_propagating (stmts : List NotebookStmt)
    (h : (stmts.all fun s => !s.guarded) = true) (fail : Nat → Option String) :
    runNotebook fail stmts = runPropagating fail stmts := by
  induction stmts with
  | nil => rfl
  | cons s rest ih =>
    rw [List.all_cons, Bool.and_eq_true] at h
    unfold runNotebook runPropagating
    cases fail s.cell with
    | some e =>
      have : s.guarded = false := by
        cases hg : s.guarded
        · rfl
        · rw [hg] at h
          exact absurd h.1 (by decide)
      rw [this]
      simp
    | none => exact ih h.2

/-- C1 counterexample: the ordering asserted by the claim fails on both
notebooks: in each, the hyperparameter constants cell precedes the
dataset-loading cell, so dataset loading does not precede hyperparameter
definition. -/
theorem pipeline_order_claim_false :
    ¬ claimedPipelineOrder mnistSteps ∧ ¬ claimedPipelineOrder reutersSteps := by
  unfold claimedPipelineOrder
  decide

/-- C1 (amended): a top-to-bottom run of each notebook defines the network
hyperparameter constants, then loads the dataset, then builds the model,
fits it, evaluates it, optionally visualizes predictions (present in the
MNIST notebook only, between evaluation and saving), and saves the model as
the last operation. -/
theorem notebook_pipeline_order :
    actualPipelineOrder mnistSteps ∧ actualPipelineOrder reutersSteps ∧
    NBStep.visualize ∈ mnistSteps ∧ NBStep.visualize ∉ reutersSteps ∧
    mnistSteps.indexOf .evaluateModel < mnistSteps.indexOf .visualize ∧
    mnistSteps.indexOf .visualize < mnistSteps.indexOf .saveModel := by
  unfold actualPipelineOrder
  decide

/-- C2: the save-model helper, modelled from the spec, does no more than
store the framework serialization of the model at the target path; when the
target already exists it shows the overwrite prompt, and on answer n the
file system is returned unchanged; when the target does not exist it stores
the serialized model without prompting. -/
theorem save_model_spec (serialize : List Layer → List Nat)
    (fs : List (String × List Nat)) (model : List Layer) (path : String) :
    ((fs.lookup path).isSome = true →
      (save_model serialize fs model path 'n').1 = fs ∧
      (save_model serialize fs model path 'n').2 = true) ∧
    (fs.lookup path = none →
      ∀ answer, (save_model serialize fs model path answer).1 =
          (path, serialize model) :: fs ∧
        (save_model serialize fs model path answer).2 = false) := by
  constructor
  · intro h
    unfold save_model
    rw [if_pos h, if_pos rfl]
    exact ⟨rfl, rfl⟩
  · intro h answer
    unfold save_model
    rw [if_neg (by simp [h])]
    exact ⟨rfl, rfl⟩

/-- C2 witness: saving over an existing file with answer n leaves the file
system unchanged and reports that the prompt was shown. -/
theorem save_model_spec_witness :
    (save_model (fun _ => []) [("models/MNIST_cnn_model", [7])] mnistLayers
      "models/MNIST_cnn_model" 'n').1 = [("models/MNIST_cnn_model", [7])] ∧
    (save_model (fun _ => []) [("models/MNIST_cnn_model", [7])] mnistLayers
      "models/MNIST_cnn_model" 'n').2 = true :=
  (save_model_spec (fun _ => []) [("models/MNIST_cnn_model", [7])]
    mnistLayers "models/MNIST_cnn_model").1 (by decide)

/-- C3: both Sequential models of the repository are assembled exclusively
by successive add calls of pre-built framework layers drawn from
Convolution2D, MaxPooling2D, Dense, Dropout, Activation and Flatten, and
each is compiled exactly once, before its fit call. -/
theorem models_sequential_prebuilt_compile_once :
    sequentialAssemblyOk mnistModelEvents ∧
    sequentialAssemblyOk reutersModelEvents ∧
    repositoryModels = [mnistLayers, reutersLayers] := by
  unfold sequentialAssemblyOk
  refine ⟨by decide, by decide, rfl⟩

/-- C4: in both notebooks the model is evaluated after fitting, exactly
once, on the held-out test data, and the evaluation result is a pair whose
component 0 is reported as the test score and component 1 as the test
accuracy. -/
theorem evaluate_score_reporting :
    (∀ loss acc : Rat,
      reportedTestScore (evaluateScores loss acc) = some loss ∧
      reportedTestAccuracy (evaluateScores loss acc) = some acc) ∧
    mnistModelEvents.findIdx ModelEvent.isFit <
      mnistModelEvents.findIdx ModelEvent.isEvaluate ∧
    reutersModelEvents.findIdx ModelEvent.isFit <
      reutersModelEvents.findIdx ModelEvent.isEvaluate ∧
    ModelEvent.evaluate "X_test Y_test" ∈ mnistModelEvents ∧
    ModelEvent.evaluate "X_test Y_test" ∈ reutersModelEvents ∧
    mnistModelEvents.countP (fun e => e.isEvaluate) = 1 ∧
    reutersModelEvents.countP (fun e => e.isEvaluate) = 1 := by
  refine ⟨fun loss acc => ⟨rfl, rfl⟩, by decide, by decide, by decide,
    by decide, by decide, by decide⟩

/-- C5 counterexample: the claim fails at the nb_hidden constant of the
Reuters notebook, which is defined in its configuration cell but is not
passed into any framework call there (it only bounds the range loop). -/
theorem hyperparam_usage_claim_false :
    ¬ claimedConstantUsage ∧
    "nb_hidden" ∈ reutersConfigConstants ∧
    "nb_hidden" ∈ claimedConstants ∧
    usedByFrameworkCall reutersFrameworkCalls "nb_hidden" = false := by
  unfold claimedConstantUsage
  refine ⟨?_, by decide, by decide, by decide⟩
  intro h
  have := ((h "nb_hidden" (by decide)).2 (by decide)).1
  simp [usedByFrameworkCall, reutersFrameworkCalls] at this

/-- C5 (amended): every enumerated hyperparameter constant, in each
notebook whose configuration cell defines it, is passed into at least one
framework call and never reassigned after its defining cell, except the
Reuters nb_hidden, which is consumed only as the bound of the range loop
over hidden blocks and is likewise never reassigned. -/
theorem hyperparam_usage_amended : amendedConstantUsage := by
  unfold amendedConstantUsage
  decide

/-- C6: the repository builds exactly two models: the MNIST one is a
convolutional network on 28x28 single-channel images with 10 output
classes, with exactly two Convolution2D layers, both before its single
MaxPooling2D layer, and the Reuters one is a multilayer perceptron with no
convolution or pooling layers, whose class count is computed as
max(y_train)+1, equal to 46 on the recorded data. -/
theorem two_network_kinds :
    (∀ y : List Nat, y.foldr Nat.max 0 = 45 →
      reutersNbClassesOf y = Reuters.nb_classes) ∧
    repositoryModels.length = 2 ∧
    mnistLayers.countP Layer.isConvolution2D = 2 ∧
    mnistLayers.countP Layer.isMaxPooling2D = 1 ∧
    (mnistLayers.take (mnistLayers.findIdx Layer.isMaxPooling2D)).countP
      Layer.isConvolution2D = 2 ∧
    inputShapeOf mnistLayers = some [1, 28, 28] ∧
    MNIST.img_rows = 28 ∧ MNIST.img_cols = 28 ∧
    Layer.Dense MNIST.nb_classes none ∈ mnistLayers ∧
    MNIST.nb_classes = 10 ∧
    reutersLayers.countP Layer.isConvolution2D = 0 ∧
    reutersLayers.countP Layer.isMaxPooling2D = 0 ∧
    inputShapeOf reutersLayers = some [Reuters.max_words] ∧
    Reuters.nb_classes = 46 := by
  refine ⟨?_, by decide, by decide, by decide, by decide, by decide,
    by decide, by decide, by decide, by decide, by decide, by decide,
    by decide, by decide⟩
  intro y hy
  unfold reutersNbClassesOf
  rw [hy]
  decide

/-- C6 witness: on a label list with maximum 45, the nb_classes formula
yields the recorded class count 46. -/
theorem two_network_kinds_witness :
    reutersNbClassesOf [45, 3, 0] = Reuters.nb_classes :=
  two_network_kinds.1 [45, 3, 0] (by decide)

/-- C7: no cell of either notebook is wrapped in a failure handler, and
running either notebook under any assignment of framework-call failures
agrees with the semantics that propagates every failure unchanged to the
caller. -/
theorem no_failure_handling :
    ((mnistStmts ++ reutersStmts).all fun s => !s.guarded) = true ∧
    (∀ fail, runNotebook fail mnistStmts = runPropagating fail mnistStmts) ∧
    (∀ fail, runNotebook fail reutersStmts = runPropagating fail reutersStmts) := by
  refine ⟨by decide, ?_, ?_⟩
  · exact runNotebook_eq_propagating mnistStmts (by decide)
  · exact runNotebook_eq_propagating reutersStmts (by decide)

/-- C8: the Reuters model construction yields 1 + max(nb_hidden-1, 0)
hidden blocks: exactly nb_hidden blocks whenever nb_hidden is at least 1,
exactly one block whenever nb_hidden is at most 1 (including 0 and negative
values), and never zero hidden blocks. -/
theorem reuters_hidden_block_count (nbHidden : Int) :
    countHiddenBlocks (buildReutersLayers nbHidden) = 1 + (nbHidden - 1).toNat ∧
    (1 ≤ nbHidden →
      countHiddenBlocks (buildReutersLayers nbHidden) = nbHidden.toNat) ∧
    (nbHidden ≤ 1 → countHiddenBlocks (buildReutersLayers nbHidden) = 1) ∧
    countHiddenBlocks (buildReutersLayers nbHidden) ≠ 0 := by
  have hmain : countHiddenBlocks (buildReutersLayers nbHidden)
      = 1 + (nbHidden - 1).toNat := by
    unfold countHiddenBlocks buildReutersLayers
    rw [List.countP_append, List.countP_append, countP_flatten_replicate]
    simp [List.countP_cons, List.countP_nil, Layer.isDropout]
  refine ⟨hmain, ?_, ?_, ?_⟩
  · intro h
    rw [hmain]
    omega
  · intro h
    rw [hmain]
    omega
  · rw [hmain]
    omega

/-- C8 witness: three hidden blocks at nb_hidden = 3; one hidden block at
nb_hidden = 0. -/
theorem reuters_hidden_block_count_witness :
    countHiddenBlocks (buildReutersLayers 3) = 3 ∧
    countHiddenBlocks (buildReutersLayers 0) = 1 :=
  ⟨(reuters_hidden_block_count 3).2.1 (by decide),
   (reuters_hidden_block_count 0).2.2.1 (by decide)⟩

/-- C9: one-hot encoding round-trips through argmax: for a label vector
with entries below nb_classes, the argmax of row i of
to_categorical(y, nb_classes) is y[i]; consequently the actual value
computed by show_predictions equals the raw test label. -/
theorem to_categorical_argmax_roundtrip (y : List Nat) (n i yi : Nat)
    (hbound : ∀ v ∈ y, v < n) (hget : y.get? i = some yi) :
    ((to_categorical y n).get? i).map np_argmax = some yi ∧
    show_predictions_actual (to_categorical y n) i = yi := by
  have hyi : yi ∈ y := List.get?_mem hget
  have hlt : yi < n := hbound yi hyi
  have h1 : (to_categorical y n).get? i = some (oneHot n yi) := by
    unfold to_categorical
    rw [List.get?_map, hget]
    rfl
  constructor
  · rw [h1]
    show some (np_argmax (oneHot n yi)) = some yi
    rw [np_argmax_oneHot n yi hlt]
  · unfold show_predictions_actual
    have h2 : (to_categorical y n).getD i [] = oneHot n yi := by
      unfold List.getD
      rw [h1]
      rfl
    rw [h2]
    exact np_argmax_oneHot n yi hlt

/-- C9 witness: the round-trip on the concrete label vector [2, 0, 1] with
3 classes at index 0. -/
theorem to_categorical_argmax_roundtrip_witness :
    ((to_categorical [2, 0, 1] 3).get? 0).map np_argmax = some 2 ∧
    show_predictions_actual (to_categorical [2, 0, 1] 3) 0 = 2 :=
  to_categorical_argmax_roundtrip [2, 0, 1] 3 0 2 (by decide) (by decide)

/-- C10: every entry of a preprocessed MNIST image is an original 8-bit
pixel value divided by 255 and lies in the closed interval from 0 to 1,
and the reshaped train and test arrays have shapes (60000, 1, 28, 28) and
(10000, 1, 28, 28). -/
theorem mnist_preprocessing_range_shape :
    (∀ img : List Nat, (∀ p ∈ img, p ≤ 255) →
      ∀ q ∈ preprocessImage img,
        (∃ p ∈ img, q = (p : Rat) / 255) ∧ 0 ≤ q ∧ q ≤ 1) ∧
    mnistReshapedShape mnist_train_samples = [60000, 1, 28, 28] ∧
    mnistReshapedShape mnist_test_samples = [10000, 1, 28, 28] := by
  refine ⟨?_, by decide, by decide⟩
  intro img hb q hq
  unfold preprocessImage at hq
  rcases List.mem_map.1 hq with ⟨p, hp, hpq⟩
  refine ⟨⟨p, hp, hpq.symm⟩, ?_, ?_⟩
  · rw [← hpq]
    positivity
  · rw [← hpq, div_le_one (by norm_num)]
    exact_mod_cast hb p hp

/-- C10 witness: the preprocessed value of the pixel 128 is nonnegative and
at most 1. -/
theorem mnist_preprocessing_range_shape_witness :
    0 ≤ ((128 : Nat) : Rat) / 255 ∧ ((128 : Nat) : Rat) / 255 ≤ 1 := by
  have hmem : ((128 : Nat) : Rat) / 255 ∈ preprocessImage [128] := by
    simp [preprocessImage]
  have h := mnist_preprocessing_range_shape.1 [128] (by decide) _ hmem
  exact ⟨h.2.1, h.2.2⟩

end KerasNotebooks
